import Mathlib

/-!
Shallow embedding of the Flight Booker backend (src/main.py and src/schemas.py).

Modelling conventions:
- Timestamps generated for one search are minutes after midnight of the
  query's travel_date (the code builds them with
  `datetime.combine(travel_date, min.time()) + timedelta(...)`, so all
  comparisons and arithmetic live on the same midnight base).
- Wall-clock instants (`datetime.utcnow()` for `updated_at`) are integers.
- Randomness (`randint`, `choice`) is modelled by passing the drawn values in
  explicitly; a validity predicate records the ranges the draws come from.
- The document store gateway (database.py, imported but not among the sources)
  is modelled from the spec's contract for it.
-/

/-- Splitting a character list on a separator, the list-level counterpart of
Python's `str.split` used by the date and email format checks. -/
def splitOnChar (c : Char) : List Char → List (List Char)
  | [] => [[]]
  | x :: xs =>
    let r := splitOnChar c xs
    if x = c then [] :: r
    else
      match r with
      | [] => [[x]]
      | h :: t => (x :: h) :: t

def digitsVal? : Option Nat → List Char → Option Nat
  | acc, [] => acc
  | some n, c :: cs =>
    if c.isDigit then digitsVal? (some (n * 10 + (c.toNat - 48))) cs else none
  | none, _ :: _ => none

/-- Value of a nonempty all-digit character list, `none` otherwise. -/
def digitsToNat? (l : List Char) : Option Nat :=
  if l.isEmpty then none else digitsVal? (some 0) l

/-- Rendering of Python's `str.upper()` (ASCII inputs, as IATA codes are). -/
def pyUpper (s : String) : String :=
  String.mk (s.data.map Char.toUpper)

/-- Calendar date, as `datetime.date` carries it. -/
structure Date where
  year : Nat
  month : Nat
  day : Nat
deriving DecidableEq

def pad2 (n : Nat) : String :=
  if n < 10 then "0" ++ toString n else toString n

def pad4 (n : Nat) : String :=
  if n < 10 then "000" ++ toString n
  else if n < 100 then "00" ++ toString n
  else if n < 1000 then "0" ++ toString n
  else toString n

/-- Rendering of `date.isoformat()`: "YYYY-MM-DD". -/
def Date.isoformat (d : Date) : String :=
  pad4 d.year ++ "-" ++ pad2 d.month ++ "-" ++ pad2 d.day

def isLeap (y : Nat) : Bool :=
  y % 4 == 0 && (y % 100 != 0 || y % 400 == 0)

def daysInMonth (y m : Nat) : Nat :=
  if m = 2 then (if isLeap y then 29 else 28)
  else if m = 4 ∨ m = 6 ∨ m = 9 ∨ m = 11 then 30
  else 31

/-- Parsing of an ISO-8601 date string "YYYY-MM-DD", as pydantic's `date`
field parsing and `datetime.fromisoformat` behave on date strings: anything
of the wrong shape, non-numeric, or not a valid calendar date is rejected. -/
def parseDate (s : String) : Option Date :=
  match splitOnChar '-' s.toList with
  | [ys, ms, ds] =>
    if ys.length = 4 ∧ ms.length = 2 ∧ ds.length = 2 then
      match digitsToNat? ys, digitsToNat? ms, digitsToNat? ds with
      | some y, some m, some d =>
        if 1 ≤ m ∧ m ≤ 12 ∧ 1 ≤ d ∧ d ≤ daysInMonth y m then some ⟨y, m, d⟩
        else none
      | _, _, _ => none
    else none
  | _ => none

/-- Date extracted by `datetime.fromisoformat(payload.date).date()` in
`create_booking` (src/main.py line 93); modelled for the date-only form of
ISO-8601 input, which is the form the API exchanges. -/
def fromisoformatDate (s : String) : Option Date :=
  parseDate s

/-- Modelled from the spec: pydantic's `EmailStr` validation (the
email-validator package, external to the sources) realising "customer_email
matches a valid email address format". Simplified to: exactly one at-sign,
a nonempty local part, a domain of at least two nonempty dot-separated
labels, and no spaces anywhere. -/
def isValidEmail (s : String) : Bool :=
  match splitOnChar '@' s.toList with
  | [l, dom] =>
    !l.isEmpty && 2 ≤ (splitOnChar '.' dom).length &&
    (splitOnChar '.' dom).all (fun lbl => !lbl.isEmpty) &&
    !(s.toList.any (fun c => c = ' '))
  | _ => false

/-- Schema `FlightSegment` (src/schemas.py lines 44-52). The code carries
departure/arrival as ISO strings; here they are minutes after midnight of
the search's travel_date, the quantity the strings render. -/
structure FlightSegment where
  flight_number : String
  airline : String
  origin : String
  destination : String
  departure_time : Nat
  arrival_time : Nat
  duration_minutes : Nat
  status : Option String
deriving DecidableEq

/-- Schema `FlightSearchRequest` after validation (src/schemas.py lines
54-58). -/
structure FlightSearchRequest where
  origin : String
  destination : String
  travel_date : Date
  passengers : Int
deriving DecidableEq

/-- Wire form of the /api/search body before validation: `date` is the raw
string (alias for travel_date) and `passengers` is `none` when the field is
absent from the JSON body. -/
structure RawSearchRequest where
  origin : String
  destination : String
  date : String
  passengers : Option Int
deriving DecidableEq

/-- Pydantic validation of `FlightSearchRequest`: origin/destination length
in [3,4], `date` parses as a calendar date, passengers in [1,9] with
default 1 when omitted. -/
def validateSearch (r : RawSearchRequest) : Option FlightSearchRequest :=
  if 3 ≤ r.origin.length ∧ r.origin.length ≤ 4 then
    if 3 ≤ r.destination.length ∧ r.destination.length ≤ 4 then
      match parseDate r.date with
      | none => none
      | some d =>
        let p := r.passengers.getD 1
        if 1 ≤ p ∧ p ≤ 9 then some ⟨r.origin, r.destination, d, p⟩
        else none
    else none
  else none

/-- Entry of the `AIRLINES` roster (src/main.py lines 29-36). -/
structure Airline where
  code : String
  name : String
deriving DecidableEq

def AIRLINES : List Airline :=
  [⟨"UA", "United"⟩, ⟨"AA", "American"⟩, ⟨"DL", "Delta"⟩,
   ⟨"WN", "Southwest"⟩, ⟨"AS", "Alaska"⟩, ⟨"B6", "JetBlue"⟩]

def STATUSES : List String :=
  ["On Time", "Boarding", "Delayed", "Departed", "Arrived"]

/-- Minute offsets drawn by `choice([0, 15, 30, 45])` (src/main.py line 50). -/
def MINUTE_OFFSETS : List Nat := [0, 15, 30, 45]

/-- Flight number construction (src/main.py lines 40-41); `n` is the value
drawn by `randint(10, 9999)`. -/
def make_flight_number (code : String) (n : Nat) : String :=
  code ++ toString n

/-- Values drawn by one iteration of the loop in `search_flights`
(src/main.py lines 47-54): `choice(AIRLINES)`, `randint(10, 9999)`,
`randint(6, 20)`, `choice([0,15,30,45])`, `randint(120, 360)`,
`choice(STATUSES)`, `randint(120, 799)`. -/
structure OfferDraw where
  airline : Airline
  flightNum : Nat
  hour : Nat
  minuteOff : Nat
  duration : Nat
  status : String
  fare : Int
deriving DecidableEq

/-- Ranges the draws of one iteration come from. -/
def OfferDraw.valid (d : OfferDraw) : Prop :=
  d.airline ∈ AIRLINES ∧ 10 ≤ d.flightNum ∧ d.flightNum ≤ 9999 ∧
  6 ≤ d.hour ∧ d.hour ≤ 20 ∧ d.minuteOff ∈ MINUTE_OFFSETS ∧
  120 ≤ d.duration ∧ d.duration ≤ 360 ∧ d.status ∈ STATUSES ∧
  120 ≤ d.fare ∧ d.fare ≤ 799

instance (d : OfferDraw) : Decidable d.valid := by
  unfold OfferDraw.valid
  infer_instance

/-- One element of the `results` list in `search_flights`: the single-segment
offer dict (src/main.py lines 65-69). -/
structure FlightOffer where
  segments : List FlightSegment
  price_total : Int
  airline : String
deriving DecidableEq

/-- One iteration of the loop in `search_flights` (src/main.py lines 47-69):
departure = midnight of travel_date + hour hours + minuteOff minutes
(expressed in minutes after that midnight), arrival = departure + duration,
price = fare * passengers, origin/destination upper-cased from the query. -/
def offerOfDraw (q : FlightSearchRequest) (d : OfferDraw) : FlightOffer :=
  let depart := 60 * d.hour + d.minuteOff
  let arrive := depart + d.duration
  { segments := [{
      flight_number := make_flight_number d.airline.code d.flightNum
      airline := d.airline.name
      origin := pyUpper q.origin
      destination := pyUpper q.destination
      departure_time := depart
      arrival_time := arrive
      duration_minutes := d.duration
      status := some d.status }]
    price_total := d.fare * q.passengers
    airline := d.airline.name }

/-- Body of `search_flights` (src/main.py lines 43-70): six iterations, each
consuming fresh draws, results appended in generation order. -/
def search_flights (q : FlightSearchRequest) (draws : Fin 6 → OfferDraw) :
    List FlightOffer :=
  (List.finRange 6).map (fun i => offerOfDraw q (draws i))

/-- The /api/search endpoint: FastAPI validates the body against
`FlightSearchRequest` first; a validation failure is rejected before the
generation loop runs. -/
def search_endpoint (r : RawSearchRequest) (draws : Fin 6 → OfferDraw) :
    Except String (List FlightOffer) :=
  match validateSearch r with
  | none => .error "422 Unprocessable Entity"
  | some q => .ok (search_flights q draws)

/-- Persisted `Booking` record (src/schemas.py lines 60-74). `price_total` is
a float in the code; the claims only ever multiply and compare it, so an
integer carries it here. -/
structure Booking where
  customer_name : String
  customer_email : String
  passengers : Int
  origin : String
  destination : String
  travel_date : Date
  flight_number : String
  airline : String
  price_total : Int
  segments : Option (List FlightSegment)
deriving DecidableEq

/-- Request model `BookingRequest` of /api/book (src/main.py lines 72-82);
every field but `segments` is required. -/
structure BookingRequest where
  customer_name : String
  customer_email : String
  passengers : Int
  origin : String
  destination : String
  date : String
  flight_number : String
  airline : String
  price_total : Int
  segments : Option (List FlightSegment)
deriving DecidableEq

/-- Wire form of the /api/book body: `passengers` is `none` when the field is
absent from the JSON. All other required fields are given, to isolate the
behaviour on a missing `passengers`. -/
structure RawBookingRequest where
  customer_name : String
  customer_email : String
  passengers : Option Int
  origin : String
  destination : String
  date : String
  flight_number : String
  airline : String
  price_total : Int
  segments : Option (List FlightSegment)
deriving DecidableEq

/-- FastAPI parsing of the /api/book body into `BookingRequest` (src/main.py
lines 72-82): `passengers: int` has no default, so a body omitting it is
rejected with HTTP 422 before `create_booking` runs. -/
def parseBookingRequest (r : RawBookingRequest) : Except Nat BookingRequest :=
  match r.passengers with
  | none => .error 422
  | some p =>
    .ok { customer_name := r.customer_name, customer_email := r.customer_email,
          passengers := p, origin := r.origin, destination := r.destination,
          date := r.date, flight_number := r.flight_number, airline := r.airline,
          price_total := r.price_total, segments := r.segments }

/-- Modelled from the spec: the Document Store Gateway's
`create_document(collection, record) -> id` (database.py, imported by
src/main.py but not among the sources). The spec gives only its contract:
insert the record and return the store-assigned identifier. -/
def create_document (store : List Booking) (b : Booking) : String × List Booking :=
  (toString store.length, store ++ [b])

/-- Outcome of /api/book: success body or an `HTTPException(status_code=400,
detail=...)` surfaced to the caller. -/
inductive BookResponse where
  | ok (booking_id : String)
  | clientError (statusCode : Nat) (detail : String)
deriving DecidableEq

/-- Pydantic validation of the `Booking` fields (src/schemas.py lines
60-74), checked in declaration order once the travel date has been
extracted: email format, passengers in [1,9], origin/destination lengths in
[3,4], price_total nonnegative; origin and destination are taken over
verbatim. -/
def bookingFieldCheck (p : BookingRequest) (d : Date) : Except String Booking :=
  if isValidEmail p.customer_email = false then
    .error "value is not a valid email address"
  else if ¬ (1 ≤ p.passengers ∧ p.passengers ≤ 9) then
    .error "passengers out of range"
  else if ¬ (3 ≤ p.origin.length ∧ p.origin.length ≤ 4) then
    .error "origin length out of range"
  else if ¬ (3 ≤ p.destination.length ∧ p.destination.length ≤ 4) then
    .error "destination length out of range"
  else if ¬ (0 ≤ p.price_total) then
    .error "price_total must be nonnegative"
  else
    .ok { customer_name := p.customer_name, customer_email := p.customer_email,
          passengers := p.passengers, origin := p.origin,
          destination := p.destination, travel_date := d,
          flight_number := p.flight_number, airline := p.airline,
          price_total := p.price_total, segments := p.segments }

/-- Construction of the `Booking` value inside the try block of
`create_booking` (src/main.py lines 87-98): `datetime.fromisoformat` runs
first while building the arguments, then pydantic validates the fields. -/
def mkBooking (p : BookingRequest) : Except String Booking :=
  match fromisoformatDate p.date with
  | none => .error "Invalid isoformat string"
  | some d => bookingFieldCheck p d

/-- Handler `create_booking` (src/main.py lines 84-102): build the Booking;
on success call `create_document` and answer `{ok, booking_id}`; any
exception becomes a 400 with its message and the store is untouched. -/
def create_booking (p : BookingRequest) (store : List Booking) :
    BookResponse × List Booking :=
  match mkBooking p with
  | .error e => (.clientError 400 e, store)
  | .ok b =>
    let res := create_document store b
    (.ok res.1, res.2)

/-- Value of a date-like field as the store hands it back: either already a
plain string or a store-native date object (which answers
`hasattr(x, "isoformat")`). -/
inductive TimeVal where
  | tStr (s : String)
  | tDate (d : Date)
deriving DecidableEq

/-- Conversion step of `list_bookings`: `if hasattr(x, "isoformat"):
x = x.isoformat()`. -/
def TimeVal.normalize : TimeVal → TimeVal
  | .tStr s => .tStr s
  | .tDate d => .tStr d.isoformat

def TimeVal.isStr : TimeVal → Bool
  | .tStr _ => true
  | .tDate _ => false

/-- Value of the `_id` field as the store hands it back: a plain string or a
store-native ObjectId; `str()` renders either. -/
inductive IdVal where
  | iStr (s : String)
  | iObjectId (hexval : String)
deriving DecidableEq

def IdVal.toStr : IdVal → String
  | .iStr s => s
  | .iObjectId h => h

def IdVal.isStr : IdVal → Bool
  | .iStr _ => true
  | .iObjectId _ => false

/-- Stored segment dict as far as `list_bookings` touches it: the two keys
it rewrites. -/
structure StoredSeg where
  departure_time : TimeVal
  arrival_time : TimeVal
deriving DecidableEq

/-- Stored booking document as far as `list_bookings` touches it: optional
`_id`, optional `travel_date`, optional `segments`. -/
structure StoredDoc where
  oid : Option IdVal
  travel_date : Option TimeVal
  segments : Option (List StoredSeg)
deriving DecidableEq

def normalizeSeg (s : StoredSeg) : StoredSeg :=
  { departure_time := s.departure_time.normalize
    arrival_time := s.arrival_time.normalize }

/-- Per-document normalization loop of `list_bookings` (src/main.py lines
109-118): `_id` through `str()` when present, `travel_date` through
`isoformat()` when it has one, and both time keys of every segment
likewise. -/
def normalizeDoc (d : StoredDoc) : StoredDoc :=
  { oid := d.oid.map (fun x => .iStr x.toStr)
    travel_date := d.travel_date.map TimeVal.normalize
    segments := d.segments.map (fun segs => segs.map normalizeSeg) }

/-- Modelled from the spec: the Document Store Gateway's
`get_documents(collection, filter, limit) -> list of records` (database.py,
not among the sources); the spec guarantees only that the result is bounded
by `limit`. -/
def get_documents (store : List StoredDoc) (limit : Nat) : List StoredDoc :=
  store.take limit

/-- Handler `list_bookings` (src/main.py lines 104-121): fetch with
`limit=50` and normalize each document. -/
def list_bookings (store : List StoredDoc) : List StoredDoc :=
  (get_documents store 50).map normalizeDoc

/-- Simulated status record (src/main.py line 128); `updated_at` is the
`datetime.utcnow().isoformat()` instant as an integer. -/
structure StatusRecord where
  status : String
  gate : String
  updated_at : Int
deriving DecidableEq

def GATE_LETTERS : List String := ["A", "B", "C", "D"]

/-- Values drawn by one call of `flight_status` (src/main.py lines 123-136):
`choice(STATUSES)`, `choice(["A","B","C","D"])`, `randint(1, 30)`, and
`randint(0, 3)` for the occasional-change test. -/
structure StatusDraw where
  status : String
  gateLetter : String
  gateNum : Nat
  flip : Nat
deriving DecidableEq

def StatusDraw.valid (d : StatusDraw) : Prop :=
  d.status ∈ STATUSES ∧ d.gateLetter ∈ GATE_LETTERS ∧
  1 ≤ d.gateNum ∧ d.gateNum ≤ 30 ∧ d.flip ≤ 3

instance (d : StatusDraw) : Decidable d.valid := by
  unfold StatusDraw.valid
  infer_instance

/-- Freshly randomized record, as built on creation and on the 1-in-4
refresh (src/main.py lines 128 and 132-134). -/
def freshRecord (d : StatusDraw) (now : Int) : StatusRecord :=
  { status := d.status
    gate := d.gateLetter ++ toString d.gateNum
    updated_at := now }

/-- The process-wide `_status_cache` dict (src/main.py line 27). -/
abbrev StatusCache := List (String × StatusRecord)

def lookupKey : StatusCache → String → Option StatusRecord
  | [], _ => none
  | (k, v) :: rest, fn => if k = fn then some v else lookupKey rest fn

def setKey : StatusCache → String → StatusRecord → StatusCache
  | [], fn, r => [(fn, r)]
  | (k, v) :: rest, fn, r =>
    if k = fn then (fn, r) :: rest else (k, v) :: setKey rest fn r

/-- Handler `flight_status` (src/main.py lines 123-136): create a fresh
record when the key is absent; otherwise refresh it exactly when the drawn
`randint(0, 3)` is 0; always store back under the key and return the
record. -/
def flight_status (cache : StatusCache) (fn : String) (d : StatusDraw)
    (now : Int) : StatusRecord × StatusCache :=
  match lookupKey cache fn with
  | none =>
    let r := freshRecord d now
    (r, setKey cache fn r)
  | some prev =>
    if d.flip = 0 then
      let r := freshRecord d now
      (r, setKey cache fn r)
    else (prev, setKey cache fn prev)

/-- Concrete validated query used to instantiate the universally quantified
theorems. -/
def exampleQuery : FlightSearchRequest :=
  { origin := "SFO", destination := "JFK", travel_date := ⟨2025, 6, 1⟩,
    passengers := 2 }

def exampleDraw : OfferDraw :=
  { airline := ⟨"UA", "United"⟩, flightNum := 123, hour := 9, minuteOff := 15,
    duration := 180, status := "On Time", fare := 350 }

def exampleDraws : Fin 6 → OfferDraw := fun _ => exampleDraw

def exampleStatusDraw : StatusDraw :=
  { status := "Boarding", gateLetter := "B", gateNum := 7, flip := 1 }

def exampleStatusDraw2 : StatusDraw :=
  { status := "Delayed", gateLetter := "C", gateNum := 12, flip := 0 }

def exampleBookingRequest : BookingRequest :=
  { customer_name := "A Lee", customer_email := "a@x.com", passengers := 2,
    origin := "sfo", destination := "JFK", date := "2025-06-01",
    flight_number := "UA123", airline := "United", price_total := 500,
    segments := none }

def exampleStoredDoc : StoredDoc :=
  { oid := some (.iObjectId "64ffabc0"), travel_date := some (.tDate ⟨2025, 6, 1⟩),
    segments := some [{ departure_time := .tDate ⟨2025, 6, 1⟩,
                        arrival_time := .tStr "2025-06-01T12:00:00" }] }

def exampleRawSearch : RawSearchRequest :=
  { origin := "SFO", destination := "JFK", date := "2025-06-01",
    passengers := none }

def exampleQueryDefault : FlightSearchRequest :=
  { origin := "SFO", destination := "JFK", travel_date := ⟨2025, 6, 1⟩,
    passengers := 1 }

/-- Search body whose origin is three characters but not letters. -/
def nonLetterSearch : RawSearchRequest :=
  { origin := "123", destination := "JFK", date := "2025-06-01",
    passengers := some 1 }

/-- Booking body omitting the `passengers` field. -/
def exampleRawBooking : RawBookingRequest :=
  { customer_name := "A Lee", customer_email := "a@x.com", passengers := none,
    origin := "SFO", destination := "JFK", date := "2025-06-01",
    flight_number := "UA123", airline := "United", price_total := 500,
    segments := none }

def invalidEmailBooking : BookingRequest :=
  { customer_name := "A Lee", customer_email := "not-an-email", passengers := 2,
    origin := "SFO", destination := "JFK", date := "2025-06-01",
    flight_number := "UA123", airline := "United", price_total := 500,
    segments := none }

/-- Record `create_booking` persists for `exampleBookingRequest`. -/
def bookedExample : Booking :=
  { customer_name := "A Lee", customer_email := "a@x.com", passengers := 2,
    origin := "sfo", destination := "JFK", travel_date := ⟨2025, 6, 1⟩,
    flight_number := "UA123", airline := "United", price_total := 500,
    segments := none }

def exampleCache : StatusCache :=
  [("AA1", { status := "On Time", gate := "A1", updated_at := 50 })]

/-- Segment of the offer that `exampleDraw` produces for `exampleQuery`:
hour 9, minute offset 15 and duration 180 give departure 555 and arrival
735 minutes after midnight. -/
def exampleSegment : FlightSegment :=
  { flight_number := "UA123", airline := "United", origin := "SFO",
    destination := "JFK", departure_time := 555, arrival_time := 735,
    duration_minutes := 180, status := some "On Time" }

lemma mem_search_flights {q : FlightSearchRequest} {draws : Fin 6 → OfferDraw}
    {o : FlightOffer} (ho : o ∈ search_flights q draws) :
    ∃ i : Fin 6, o = offerOfDraw q (draws i) := by
  simp only [search_flights, List.mem_map] at ho
  obtain ⟨i, -, hi⟩ := ho
  exact ⟨i, hi.symm⟩

lemma offerOfDraw_segments (q : FlightSearchRequest) (d : OfferDraw) {s : FlightSegment}
    (hs : s ∈ (offerOfDraw q d).segments) :
    s = { flight_number := make_flight_number d.airline.code d.flightNum
          airline := d.airline.name
          origin := pyUpper q.origin
          destination := pyUpper q.destination
          departure_time := 60 * d.hour + d.minuteOff
          arrival_time := 60 * d.hour + d.minuteOff + d.duration
          duration_minutes := d.duration
          status := some d.status } := by
  simpa only [offerOfDraw, List.mem_singleton] using hs

lemma offerOfDraw_spec (q : FlightSearchRequest) (d : OfferDraw) (hv : d.valid) :
    (offerOfDraw q d).segments.length = 1 ∧
    (∀ s ∈ (offerOfDraw q d).segments, s.departure_time < s.arrival_time) ∧
    ∃ fare : Int, 120 ≤ fare ∧ fare ≤ 799 ∧
      (offerOfDraw q d).price_total = fare * q.passengers := by
  obtain ⟨-, -, -, -, -, -, hd1, -, -, hf1, hf2⟩ := hv
  refine ⟨rfl, ?_, d.fare, hf1, hf2, rfl⟩
  intro s hs
  rw [offerOfDraw_segments q d hs]
  simp only
  omega

lemma lookupKey_setKey_self (c : StatusCache) (fn : String) (r : StatusRecord) :
    lookupKey (setKey c fn r) fn = some r := by
  induction c with
  | nil => simp [setKey, lookupKey]
  | cons head tail ih =>
    obtain ⟨k, v⟩ := head
    by_cases hk : k = fn
    · simp [setKey, lookupKey, hk]
    · simp [setKey, lookupKey, hk, ih]

lemma lookupKey_setKey_ne (c : StatusCache) (fn k : String) (r : StatusRecord)
    (hk : k ≠ fn) : lookupKey (setKey c fn r) k = lookupKey c k := by
  have hfk : ¬ fn = k := fun h => hk h.symm
  induction c with
  | nil => simp [setKey, lookupKey, hfk]
  | cons head tail ih =>
    obtain ⟨k0, v⟩ := head
    by_cases h0 : k0 = fn
    · subst h0
      simp [setKey, lookupKey, hfk]
    · simp only [setKey, if_neg h0, lookupKey]
      by_cases h1 : k0 = k
      · simp [h1]
      · simp [h1, ih]

lemma flight_status_absent (c : StatusCache) (fn : String) (d : StatusDraw)
    (t : Int) (h : lookupKey c fn = none) :
    flight_status c fn d t = (freshRecord d t, setKey c fn (freshRecord d t)) := by
  unfold flight_status
  rw [h]

lemma flight_status_refresh (c : StatusCache) (fn : String) (d : StatusDraw)
    (t : Int) (prev : StatusRecord) (h : lookupKey c fn = some prev)
    (hf : d.flip = 0) :
    flight_status c fn d t = (freshRecord d t, setKey c fn (freshRecord d t)) := by
  unfold flight_status
  rw [h]
  show (if d.flip = 0 then (freshRecord d t, setKey c fn (freshRecord d t))
        else (prev, setKey c fn prev)) = _
  rw [if_pos hf]

lemma flight_status_keep (c : StatusCache) (fn : String) (d : StatusDraw)
    (t : Int) (prev : StatusRecord) (h : lookupKey c fn = some prev)
    (hf : d.flip ≠ 0) :
    flight_status c fn d t = (prev, setKey c fn prev) := by
  unfold flight_status
  rw [h]
  show (if d.flip = 0 then (freshRecord d t, setKey c fn (freshRecord d t))
        else (prev, setKey c fn prev)) = _
  rw [if_neg hf]

lemma flight_status_stores_result (c : StatusCache) (fn : String)
    (d : StatusDraw) (t : Int) :
    lookupKey (flight_status c fn d t).2 fn = some (flight_status c fn d t).1 := by
  cases h : lookupKey c fn with
  | none =>
    rw [flight_status_absent c fn d t h]
    exact lookupKey_setKey_self c fn _
  | some prev =>
    by_cases hf : d.flip = 0
    · rw [flight_status_refresh c fn d t prev h hf]
      exact lookupKey_setKey_self c fn _
    · rw [flight_status_keep c fn d t prev h hf]
      exact lookupKey_setKey_self c fn _

lemma flight_status_fst_updated_le (c : StatusCache) (fn : String)
    (d : StatusDraw) (t : Int)
    (hwf : ∀ k r, lookupKey c k = some r → r.updated_at ≤ t) :
    (flight_status c fn d t).1.updated_at ≤ t := by
  cases h : lookupKey c fn with
  | none =>
    rw [flight_status_absent c fn d t h]
    exact le_refl t
  | some prev =>
    by_cases hf : d.flip = 0
    · rw [flight_status_refresh c fn d t prev h hf]
      exact le_refl t
    · rw [flight_status_keep c fn d t prev h hf]
      exact hwf fn prev h

lemma flight_status_existing (c : StatusCache) (fn : String) (d : StatusDraw)
    (t : Int) (r1 : StatusRecord) (h : lookupKey c fn = some r1) :
    (flight_status c fn d t).1 = r1 ∨ (flight_status c fn d t).1 = freshRecord d t := by
  by_cases hf : d.flip = 0
  · rw [flight_status_refresh c fn d t r1 h hf]
    exact Or.inr rfl
  · rw [flight_status_keep c fn d t r1 h hf]
    exact Or.inl rfl

lemma flight_status_snd_lookup_ne (c : StatusCache) (fn k : String)
    (d : StatusDraw) (t : Int) (hk : k ≠ fn) :
    lookupKey (flight_status c fn d t).2 k = lookupKey c k := by
  cases h : lookupKey c fn with
  | none =>
    rw [flight_status_absent c fn d t h]
    exact lookupKey_setKey_ne c fn k _ hk
  | some prev =>
    by_cases hf : d.flip = 0
    · rw [flight_status_refresh c fn d t prev h hf]
      exact lookupKey_setKey_ne c fn k _ hk
    · rw [flight_status_keep c fn d t prev h hf]
      exact lookupKey_setKey_ne c fn k _ hk

lemma TimeVal.normalize_isStr (t : TimeVal) : t.normalize.isStr = true := by
  cases t <;> rfl

lemma validateSearch_passengers (r : RawSearchRequest) (q : FlightSearchRequest)
    (hv : validateSearch r = some q) : q.passengers = r.passengers.getD 1 := by
  unfold validateSearch at hv
  by_cases h1 : 3 ≤ r.origin.length ∧ r.origin.length ≤ 4
  · rw [if_pos h1] at hv
    by_cases h2 : 3 ≤ r.destination.length ∧ r.destination.length ≤ 4
    · rw [if_pos h2] at hv
      cases hpd : parseDate r.date with
      | none =>
        rw [hpd] at hv
        exact absurd hv (by simp)
      | some dt =>
        rw [hpd] at hv
        have hv2 : (if 1 ≤ r.passengers.getD 1 ∧ r.passengers.getD 1 ≤ 9 then
            some (⟨r.origin, r.destination, dt, r.passengers.getD 1⟩ :
              FlightSearchRequest)
          else none) = some q := hv
        by_cases h3 : 1 ≤ r.passengers.getD 1 ∧ r.passengers.getD 1 ≤ 9
        · rw [if_pos h3, Option.some_inj] at hv2
          rw [← hv2]
        · rw [if_neg h3] at hv2
          exact absurd hv2 (by simp)
    · rw [if_neg h2] at hv
      exact absurd hv (by simp)
  · rw [if_neg h1] at hv
    exact absurd hv (by simp)

lemma mkBooking_parsed (p : BookingRequest) (dt : Date)
    (hd : fromisoformatDate p.date = some dt) :
    mkBooking p = bookingFieldCheck p dt := by
  unfold mkBooking
  rw [hd]

lemma create_booking_error (p : BookingRequest) (store : List Booking)
    (e : String) (h : mkBooking p = .error e) :
    create_booking p store = (.clientError 400 e, store) := by
  unfold create_booking
  rw [h]

lemma create_booking_ok (p : BookingRequest) (store : List Booking)
    (b : Booking) (h : mkBooking p = .ok b) :
    create_booking p store = (.ok (toString store.length), store ++ [b]) := by
  unfold create_booking
  rw [h]
  rfl

lemma mkBooking_invalid_email (p : BookingRequest)
    (h : isValidEmail p.customer_email = false) :
    ∃ e, mkBooking p = .error e := by
  unfold mkBooking
  cases hd : fromisoformatDate p.date with
  | none => exact ⟨_, rfl⟩
  | some dt =>
    refine ⟨"value is not a valid email address", ?_⟩
    show bookingFieldCheck p dt = _
    unfold bookingFieldCheck
    rw [if_pos h]

lemma bookingFieldCheck_ok_fields (p : BookingRequest) (d : Date) (b : Booking)
    (h : bookingFieldCheck p d = .ok b) :
    b.origin = p.origin ∧ b.destination = p.destination := by
  unfold bookingFieldCheck at h
  split_ifs at h with h1 h2 h3 h4 h5
  rw [Except.ok.injEq] at h
  rw [← h]
  exact ⟨rfl, rfl⟩

lemma mkBooking_ok_fields (p : BookingRequest) (b : Booking)
    (h : mkBooking p = .ok b) :
    b.origin = p.origin ∧ b.destination = p.destination := by
  unfold mkBooking at h
  cases hd : fromisoformatDate p.date with
  | none =>
    rw [hd] at h
    exact absurd h (by simp)
  | some dt =>
    rw [hd] at h
    exact bookingFieldCheck_ok_fields p dt b h

/-- C1: for every valid search query, the /api/search handler produces
exactly 6 offers, in generation order (the i-th offer comes from the i-th
iteration's draws), each with exactly one segment whose arrival is strictly
after its departure, and each priced as an integer fare in [120, 799] times
the query's passenger count. -/
theorem search_offers_exact (q : FlightSearchRequest) (draws : Fin 6 → OfferDraw)
    (hd : ∀ i, (draws i).valid) :
    (search_flights q draws).length = 6 ∧
    search_flights q draws =
      [offerOfDraw q (draws 0), offerOfDraw q (draws 1), offerOfDraw q (draws 2),
       offerOfDraw q (draws 3), offerOfDraw q (draws 4), offerOfDraw q (draws 5)] ∧
    ∀ o ∈ search_flights q draws,
      o.segments.length = 1 ∧
      (∀ s ∈ o.segments, s.departure_time < s.arrival_time) ∧
      ∃ fare : Int, 120 ≤ fare ∧ fare ≤ 799 ∧
        o.price_total = fare * q.passengers := by
  refine ⟨rfl, rfl, ?_⟩
  intro o ho
  obtain ⟨i, rfl⟩ := mem_search_flights ho
  exact offerOfDraw_spec q (draws i) (hd i)

theorem search_offers_exact_witness :
    search_flights exampleQuery exampleDraws =
      [offerOfDraw exampleQuery (exampleDraws 0), offerOfDraw exampleQuery (exampleDraws 1),
       offerOfDraw exampleQuery (exampleDraws 2), offerOfDraw exampleQuery (exampleDraws 3),
       offerOfDraw exampleQuery (exampleDraws 4), offerOfDraw exampleQuery (exampleDraws 5)] :=
  (search_offers_exact exampleQuery exampleDraws
    (by decide : ∀ i : Fin 6, (exampleDraws i).valid)).2.1

/-- C5: every generated segment departs at midnight of the travel date plus
an hour in [6, 20] plus a minute offset from {0, 15, 30, 45} (times are
minutes after that midnight), has a duration in [120, 360] minutes, and
arrives exactly duration minutes after departure. -/
theorem segment_schedule_spec (q : FlightSearchRequest) (draws : Fin 6 → OfferDraw)
    (hd : ∀ i, (draws i).valid) :
    ∀ o ∈ search_flights q draws, ∀ s ∈ o.segments,
      (∃ h m, 6 ≤ h ∧ h ≤ 20 ∧ m ∈ MINUTE_OFFSETS ∧
        s.departure_time = 60 * h + m) ∧
      120 ≤ s.duration_minutes ∧ s.duration_minutes ≤ 360 ∧
      s.arrival_time = s.departure_time + s.duration_minutes := by
  intro o ho s hs
  obtain ⟨i, rfl⟩ := mem_search_flights ho
  obtain ⟨-, -, -, hh1, hh2, hm, hd1, hd2, -, -, -⟩ := hd i
  rw [offerOfDraw_segments q (draws i) hs]
  exact ⟨⟨(draws i).hour, (draws i).minuteOff, hh1, hh2, hm, rfl⟩, hd1, hd2, rfl⟩

theorem segment_schedule_spec_witness :
    (∃ h m, 6 ≤ h ∧ h ≤ 20 ∧ m ∈ MINUTE_OFFSETS ∧
      exampleSegment.departure_time = 60 * h + m) ∧
    120 ≤ exampleSegment.duration_minutes ∧
    exampleSegment.duration_minutes ≤ 360 ∧
    exampleSegment.arrival_time =
      exampleSegment.departure_time + exampleSegment.duration_minutes :=
  segment_schedule_spec exampleQuery exampleDraws
    (by decide : ∀ i : Fin 6, (exampleDraws i).valid)
    (offerOfDraw exampleQuery exampleDraw) (by decide) exampleSegment (by decide)

/-- C4 counterexample: `create_booking` persists the request's origin
verbatim; for a request with origin "sfo" it succeeds and stores a booking
whose origin is "sfo", not the upper-cased "SFO", so the bookings half of
the claim is false on the code. -/
theorem booking_origin_not_uppercased_cex :
    (create_booking exampleBookingRequest []).1 = .ok "0" ∧
    (create_booking exampleBookingRequest []).2.map Booking.origin = ["sfo"] ∧
    pyUpper exampleBookingRequest.origin = "SFO" ∧
    ("sfo" : String) ≠ "SFO" := by
  refine ⟨by decide, by decide, by decide, by decide⟩

/-- C4 amended: origin and destination inside every generated offer segment
are the upper-cased query codes, while a persisted Booking keeps the
request's origin/destination exactly as sent (length-validated but not
case-normalized). -/
theorem iata_uppercase_amended (q : FlightSearchRequest) (draws : Fin 6 → OfferDraw) :
    (∀ o ∈ search_flights q draws, ∀ s ∈ o.segments,
      s.origin = pyUpper q.origin ∧ s.destination = pyUpper q.destination) ∧
    (∀ (p : BookingRequest) (store : List Booking) (bid : String)
        (store2 : List Booking), create_booking p store = (.ok bid, store2) →
      ∃ b : Booking, store2 = store ++ [b] ∧ b.origin = p.origin ∧
        b.destination = p.destination) := by
  constructor
  · intro o ho s hs
    obtain ⟨i, rfl⟩ := mem_search_flights ho
    rw [offerOfDraw_segments q (draws i) hs]
    exact ⟨rfl, rfl⟩
  · intro p store bid store2 h
    cases hm : mkBooking p with
    | error e =>
      rw [create_booking_error p store e hm] at h
      simp at h
    | ok b =>
      rw [create_booking_ok p store b hm] at h
      rw [Prod.mk.injEq] at h
      exact ⟨b, h.2.symm, (mkBooking_ok_fields p b hm).1,
        (mkBooking_ok_fields p b hm).2⟩

theorem iata_uppercase_amended_witness :
    ∃ b : Booking, [bookedExample] = [] ++ [b] ∧
      b.origin = exampleBookingRequest.origin ∧
      b.destination = exampleBookingRequest.destination :=
  (iata_uppercase_amended exampleQuery exampleDraws).2 exampleBookingRequest []
    "0" [bookedExample] (by decide)

/-- C2: `get_status` creates, stores and returns a fresh record (status from
the enum, gate a letter in A-D concatenated with an integer in [1, 30], the
current instant) when none exists; when one exists it replaces status, gate
and updated_at with freshly randomized values exactly when the drawn
integer in [0, 3] is 0, and otherwise returns the stored record
unchanged. -/
theorem flight_status_spec (c : StatusCache) (fn : String) (d : StatusDraw)
    (t : Int) (hv : d.valid) :
    (lookupKey c fn = none →
      (flight_status c fn d t).1 = freshRecord d t ∧
      lookupKey (flight_status c fn d t).2 fn = some (freshRecord d t) ∧
      (freshRecord d t).status ∈ STATUSES ∧
      (∃ L n, L ∈ GATE_LETTERS ∧ 1 ≤ n ∧ n ≤ 30 ∧
        (freshRecord d t).gate = L ++ toString n) ∧
      (freshRecord d t).updated_at = t) ∧
    (∀ prev, lookupKey c fn = some prev →
      (d.flip = 0 →
        (flight_status c fn d t).1 = freshRecord d t ∧
        lookupKey (flight_status c fn d t).2 fn = some (freshRecord d t)) ∧
      (d.flip ≠ 0 →
        (flight_status c fn d t).1 = prev ∧
        lookupKey (flight_status c fn d t).2 fn = some prev)) := by
  obtain ⟨hs, hg, hn1, hn2, -⟩ := hv
  constructor
  · intro h
    rw [flight_status_absent c fn d t h]
    exact ⟨rfl, lookupKey_setKey_self c fn _, hs,
      ⟨d.gateLetter, d.gateNum, hg, hn1, hn2, rfl⟩, rfl⟩
  · intro prev hp
    constructor
    · intro hf
      rw [flight_status_refresh c fn d t prev hp hf]
      exact ⟨rfl, lookupKey_setKey_self c fn _⟩
    · intro hf
      rw [flight_status_keep c fn d t prev hp hf]
      exact ⟨rfl, lookupKey_setKey_self c fn _⟩

theorem flight_status_spec_witness :
    (flight_status [] "UA123" exampleStatusDraw 100).1 =
      freshRecord exampleStatusDraw 100 :=
  (((flight_status_spec [] "UA123" exampleStatusDraw 100 (by decide)).1) rfl).1

/-- C6: across two successive `get_status` calls for the same flight number
(under a non-decreasing clock whose cached records carry past instants), the
second call returns either the first call's record unchanged or a freshly
randomized one, and updated_at never decreases. -/
theorem status_updated_monotone (c : StatusCache) (fn : String)
    (d1 d2 : StatusDraw) (t1 t2 : Int)
    (hwf : ∀ k r, lookupKey c k = some r → r.updated_at ≤ t1)
    (ht : t1 ≤ t2) :
    ((flight_status (flight_status c fn d1 t1).2 fn d2 t2).1 =
        (flight_status c fn d1 t1).1 ∨
      (flight_status (flight_status c fn d1 t1).2 fn d2 t2).1 =
        freshRecord d2 t2) ∧
    (flight_status c fn d1 t1).1.updated_at ≤
      (flight_status (flight_status c fn d1 t1).2 fn d2 t2).1.updated_at := by
  have hmem := flight_status_stores_result c fn d1 t1
  have hdisj := flight_status_existing (flight_status c fn d1 t1).2 fn d2 t2
    (flight_status c fn d1 t1).1 hmem
  refine ⟨hdisj, ?_⟩
  rcases hdisj with h | h
  · rw [h]
  · rw [h]
    exact le_trans (flight_status_fst_updated_le c fn d1 t1 hwf) ht

theorem status_updated_monotone_witness :
    (flight_status [] "UA123" exampleStatusDraw 100).1.updated_at ≤
      (flight_status (flight_status [] "UA123" exampleStatusDraw 100).2 "UA123"
        exampleStatusDraw2 101).1.updated_at :=
  (status_updated_monotone [] "UA123" exampleStatusDraw exampleStatusDraw2 100 101
    (fun k r h => by simp [lookupKey] at h) (by decide)).2

/-- C9: `get_status` for one flight number never changes the record of any
other flight number and never removes a key from the status cache. -/
theorem status_frame (c : StatusCache) (fn : String) (d : StatusDraw) (t : Int) :
    (∀ k, k ≠ fn → lookupKey (flight_status c fn d t).2 k = lookupKey c k) ∧
    (∀ k, lookupKey c k ≠ none → lookupKey (flight_status c fn d t).2 k ≠ none) := by
  refine ⟨fun k hk => flight_status_snd_lookup_ne c fn k d t hk, ?_⟩
  intro k hknone
  by_cases hk : k = fn
  · subst hk
    rw [flight_status_stores_result c k d t]
    simp
  · rw [flight_status_snd_lookup_ne c fn k d t hk]
    exact hknone

theorem status_frame_witness :
    lookupKey (flight_status exampleCache "UA123" exampleStatusDraw 100).2 "AA1" =
      lookupKey exampleCache "AA1" :=
  (status_frame exampleCache "UA123" exampleStatusDraw 100).1 "AA1" (by decide)

/-- C3: a booking request whose customer_email is not a valid email fails
with a 400 client error carrying the validation message, and the document
store's create operation is never invoked (the store is unchanged). -/
theorem create_booking_invalid_email (p : BookingRequest) (store : List Booking)
    (h : isValidEmail p.customer_email = false) :
    (∃ msg, (create_booking p store).1 = .clientError 400 msg) ∧
    (create_booking p store).2 = store := by
  obtain ⟨e, he⟩ := mkBooking_invalid_email p h
  rw [create_booking_error p store e he]
  exact ⟨⟨e, rfl⟩, rfl⟩

theorem create_booking_invalid_email_witness :
    isValidEmail "not-an-email" = false ∧
    (create_booking invalidEmailBooking []).2 = [] :=
  ⟨by decide, (create_booking_invalid_email invalidEmailBooking [] (by decide)).2⟩

/-- C7: `list_bookings` returns at most 50 records, and in every returned
record the store-native identifier and all date/time fields (travel_date and
each segment's departure/arrival) are plain strings. -/
theorem list_bookings_normalized (store : List StoredDoc) :
    (list_bookings store).length ≤ 50 ∧
    ∀ d ∈ list_bookings store,
      (∀ x, d.oid = some x → x.isStr = true) ∧
      (∀ v, d.travel_date = some v → v.isStr = true) ∧
      (∀ segs, d.segments = some segs → ∀ s ∈ segs,
        s.departure_time.isStr = true ∧ s.arrival_time.isStr = true) := by
  constructor
  · simp only [list_bookings, get_documents, List.length_map]
    exact List.length_take_le 50 store
  · intro d hd
    simp only [list_bookings, get_documents, List.mem_map] at hd
    obtain ⟨a, -, rfl⟩ := hd
    refine ⟨?_, ?_, ?_⟩
    · intro x hx
      cases ho : a.oid with
      | none => simp [normalizeDoc, ho] at hx
      | some y =>
        simp [normalizeDoc, ho] at hx
        subst hx
        rfl
    · intro v hv
      cases ho : a.travel_date with
      | none => simp [normalizeDoc, ho] at hv
      | some w =>
        simp [normalizeDoc, ho] at hv
        subst hv
        exact TimeVal.normalize_isStr w
    · intro segs hsegs s hs
      cases ho : a.segments with
      | none => simp [normalizeDoc, ho] at hsegs
      | some l =>
        simp [normalizeDoc, ho] at hsegs
        subst hsegs
        simp only [List.mem_map] at hs
        obtain ⟨s0, -, rfl⟩ := hs
        exact ⟨TimeVal.normalize_isStr _, TimeVal.normalize_isStr _⟩

theorem list_bookings_normalized_witness :
    (list_bookings [exampleStoredDoc]).length ≤ 50 :=
  (list_bookings_normalized [exampleStoredDoc]).1

/-- C8 counterexample: the search body with origin "123" (three characters,
none of them letters) passes validation, so "accepts exactly when each is an
IATA code of 3-4 letters" is false on the code: only the length is
checked. -/
theorem search_accepts_nonletter_cex :
    (validateSearch nonLetterSearch).isSome = true ∧
    nonLetterSearch.origin.toList.all Char.isAlpha = false :=
  ⟨by decide, by decide⟩

/-- C8 amended: search validation accepts origin/destination exactly when
each is a string of 3-4 characters (letters are not required); an
unparsable travel date is rejected, and any rejected input reaches the
422 error before the generation loop, so no offers are generated. -/
theorem search_validation_amended (r : RawSearchRequest)
    (hdate : (parseDate r.date).isSome = true)
    (hp : 1 ≤ r.passengers.getD 1 ∧ r.passengers.getD 1 ≤ 9) :
    ((validateSearch r).isSome = true ↔
      (3 ≤ r.origin.length ∧ r.origin.length ≤ 4 ∧
       3 ≤ r.destination.length ∧ r.destination.length ≤ 4)) ∧
    (∀ r2 : RawSearchRequest, parseDate r2.date = none →
      validateSearch r2 = none) ∧
    (∀ (r2 : RawSearchRequest) (draws : Fin 6 → OfferDraw),
      validateSearch r2 = none →
      search_endpoint r2 draws = .error "422 Unprocessable Entity") := by
  refine ⟨?_, ?_, ?_⟩
  · constructor
    · intro h
      by_cases h1 : 3 ≤ r.origin.length ∧ r.origin.length ≤ 4
      · by_cases h2 : 3 ≤ r.destination.length ∧ r.destination.length ≤ 4
        · exact ⟨h1.1, h1.2, h2.1, h2.2⟩
        · unfold validateSearch at h
          rw [if_pos h1, if_neg h2] at h
          simp at h
      · unfold validateSearch at h
        rw [if_neg h1] at h
        simp at h
    · rintro ⟨h1, h2, h3, h4⟩
      obtain ⟨dt, hdt⟩ := Option.isSome_iff_exists.mp hdate
      unfold validateSearch
      rw [if_pos ⟨h1, h2⟩, if_pos ⟨h3, h4⟩, hdt]
      have hred : (if 1 ≤ r.passengers.getD 1 ∧ r.passengers.getD 1 ≤ 9 then
          some (⟨r.origin, r.destination, dt, r.passengers.getD 1⟩ :
            FlightSearchRequest)
        else none).isSome = true := by
        rw [if_pos hp]
        rfl
      exact hred
  · intro r2 hnone
    unfold validateSearch
    rw [hnone]
    split_ifs <;> rfl
  · intro r2 draws hv
    unfold search_endpoint
    rw [hv]

theorem search_validation_amended_witness :
    (validateSearch exampleRawSearch).isSome = true ↔
      (3 ≤ exampleRawSearch.origin.length ∧ exampleRawSearch.origin.length ≤ 4 ∧
       3 ≤ exampleRawSearch.destination.length ∧
        exampleRawSearch.destination.length ≤ 4) :=
  (search_validation_amended exampleRawSearch (by decide) (by decide)).1

/-- C10 counterexample: a booking body omitting `passengers` is rejected
with 422 by the endpoint's required-field request model, so the booking half
of "omitted passengers defaults to 1 and the request is accepted" is false
on the code. -/
theorem booking_passengers_required_cex :
    parseBookingRequest exampleRawBooking = .error 422 := rfl

/-- C10 amended: an omitted passengers field defaults to 1 for search
requests - the request is accepted and every offer's price equals the drawn
fare times 1 - while for booking requests the field is required by the
endpoint's request model and a body omitting it is rejected with 422. -/
theorem passengers_default_amended (r : RawSearchRequest)
    (q : FlightSearchRequest) (hp : r.passengers = none)
    (hv : validateSearch r = some q) (draws : Fin 6 → OfferDraw)
    (hd : ∀ i, (draws i).valid) :
    q.passengers = 1 ∧
    (∀ o ∈ search_flights q draws,
      ∃ fare : Int, 120 ≤ fare ∧ fare ≤ 799 ∧ o.price_total = fare * 1) ∧
    (∀ rb : RawBookingRequest, rb.passengers = none →
      parseBookingRequest rb = .error 422) := by
  have hq1 : q.passengers = 1 := by
    rw [validateSearch_passengers r q hv, hp]
    rfl
  refine ⟨hq1, ?_, ?_⟩
  · intro o ho
    obtain ⟨i, rfl⟩ := mem_search_flights ho
    obtain ⟨-, -, -, -, -, -, -, -, -, hf1, hf2⟩ := hd i
    refine ⟨(draws i).fare, hf1, hf2, ?_⟩
    show (draws i).fare * q.passengers = (draws i).fare * 1
    rw [hq1]
  · intro rb hrb
    unfold parseBookingRequest
    rw [hrb]

theorem passengers_default_amended_witness :
    exampleQueryDefault.passengers = 1 :=
  (passengers_default_amended exampleRawSearch exampleQueryDefault rfl
    (by decide) exampleDraws
    (by decide : ∀ i : Fin 6, (exampleDraws i).valid)).1
